import Mathlib

/-!
Verification of the cart/order core of the Nimzo/FlashMart backend.

The repository contains two snapshots of the backend:
* `src/main.py` — an early in-memory snapshot (FastAPI over process-wide
  dictionaries), embedded below in namespace `MainApp`;
* `src/server.py` — the later MongoDB-backed snapshot, embedded below in
  namespace `ServerApp`.

Python floats (prices, MRP) are modelled as rationals (`ℚ`), Python ints as
`Int`, and fallible endpoints return `Except Err`.  Database writes are
modelled by explicit state passing: every Mongo `update_one` becomes a
function from the stored value to the new stored value, with "first matching
document" semantics made explicit.
-/

deriving instance DecidableEq for Except

/-- The error taxonomy of the two snapshots (HTTPException details). -/
inductive Err where
  | productNotFound
  | emptyCart
  | addressNotFound
  | orderNotFound
  | invalidStatus
  | forbidden
  | unauthorized
  | divisionByZero
deriving DecidableEq

namespace MainApp

/-- A product of the static `PRODUCTS` list in `main.py` (ints for prices). -/
structure Product where
  id : Nat
  name : String
  price : Int
  category : String
  image : String
  in_stock : Bool
deriving DecidableEq

/-- The hard-coded `PRODUCTS` dummy catalog of `main.py`. -/
def PRODUCTS : List Product :=
  [ ⟨1, "Aashirvaad Atta 5kg", 320, "Groceries", "https://via.placeholder.com/150", true⟩,
    ⟨2, "Amul Milk 500ml", 28, "Groceries", "https://via.placeholder.com/150", true⟩,
    ⟨3, "Apple (1kg)", 140, "Fruits", "https://via.placeholder.com/150", true⟩,
    ⟨4, "Tomato (1kg)", 40, "Vegetables", "https://via.placeholder.com/150", false⟩ ]

/-- A cart line as stored by `main.py`'s `add_to_cart`: a presentation
snapshot (name, price, image) taken from the catalog at add time, plus the
quantity. -/
structure CartItem where
  product_id : Nat
  name : String
  price : Int
  image : String
  quantity : Int
deriving DecidableEq

/-- The response shape of `GET /api/cart` in `main.py`. -/
structure CartView where
  items : List CartItem
  total : Int
  item_count : Int
  savings : Int
deriving DecidableEq

/-- `main.py` `get_cart`: `total = sum(price*quantity)`,
`item_count = sum(quantity)` (NOT the number of lines), `savings = 0`. -/
def get_cart (items : List CartItem) : CartView :=
  { items := items
    total := (items.map (fun i => i.price * i.quantity)).sum
    item_count := (items.map (fun i => i.quantity)).sum
    savings := 0 }

/-- Increment the quantity of the first line matching `pid` (the `for` loop
in `main.py`'s `add_to_cart` returns right after the first match). -/
def incFirst (pid : Nat) (qty : Int) : List CartItem → List CartItem
  | [] => []
  | i :: is =>
      if i.product_id = pid then { i with quantity := i.quantity + qty } :: is
      else i :: incFirst pid qty is

/-- `main.py` `add_to_cart`: 404 if the product id is not in `PRODUCTS`;
otherwise accumulate into the first existing line for the product, or append
a new line carrying the presentation snapshot of the product. -/
def add_to_cart (items : List CartItem) (pid : Nat) (qty : Int) :
    Except Err (List CartItem) :=
  match PRODUCTS.find? (fun p => p.id == pid) with
  | none => .error .productNotFound
  | some p =>
      if items.any (fun i => i.product_id == pid) then
        .ok (incFirst pid qty items)
      else
        .ok (items ++ [⟨pid, p.name, p.price, p.image, qty⟩])

/-- The `POST /api/cart/add` route of `main.py` reads
`payload.get("quantity", 1)`: an omitted quantity defaults to 1. -/
def add_to_cart_route (items : List CartItem) (pid : Nat) (qty : Option Int) :
    Except Err (List CartItem) :=
  add_to_cart items pid (qty.getD 1)

/-- `main.py` `update_cart`: sets `quantity` on every line matching the
payload's product id, whatever the payload quantity is (no removal, no
validation); always succeeds. -/
def update_cart (items : List CartItem) (pid : Nat) (qty : Int) :
    List CartItem :=
  items.map (fun i => if i.product_id = pid then { i with quantity := qty } else i)

/-- `main.py` `remove_cart_item`: keep the lines whose product id differs. -/
def remove_cart_item (items : List CartItem) (pid : Nat) : List CartItem :=
  items.filter (fun i => !(i.product_id == pid))

/-- `main.py` `clear_cart`. -/
def clear_cart : List CartItem := []

/-- An order record of `main.py` (`name`/`phone`/`address` come from the
untyped payload, hence `Option`). -/
structure Order where
  order_id : String
  user_id : String
  name : Option String
  phone : Option String
  address : Option String
  items : List CartItem
  total : Int
  status : String
deriving DecidableEq

/-- `main.py` `place_order`: 400 `Cart is empty` when the user has no cart
or no items (an absent cart is modelled as `[]`); otherwise snapshot the
cart lines into an order with status `"PLACED"`, with
`total = sum(price*quantity)` over the stored lines, and reset the cart to
empty.  Returns the new order together with the new cart contents. -/
def place_order (items : List CartItem) (uid oid : String)
    (name phone address : Option String) :
    Except Err (Order × List CartItem) :=
  if items.isEmpty then .error .emptyCart
  else
    .ok ({ order_id := oid, user_id := uid, name := name, phone := phone,
           address := address, items := items,
           total := (items.map (fun i => i.price * i.quantity)).sum,
           status := "PLACED" }, [])

/-- `main.py` `get_orders`: the caller's own orders. -/
def get_orders (orders : List Order) (uid : String) : List Order :=
  orders.filter (fun o => o.user_id == uid)

/-- `main.py` `admin_get_orders`: the route has NO dependency on any
identity — the (ignored) `Authorization` header is passed to make that
explicit.  Every caller receives the full order list. -/
def admin_get_orders (authorization : Option String) (orders : List Order) :
    Except Err (List Order) :=
  .ok orders

/-- Set the status of the first order matching `oid` (the `for` loop in
`main.py` returns after the first match); `none` when no order matches. -/
def setStatusFirst (oid st : String) : List Order → Option (List Order)
  | [] => none
  | o :: os =>
      if o.order_id = oid then some ({ o with status := st } :: os)
      else (setStatusFirst oid st os).map (o :: ·)

/-- `main.py` `admin_update_order_status`: again no identity dependency and
NO validation of the incoming status string; the first matching order gets
the payload's status verbatim, and a missing order is a 404. -/
def admin_update_order_status (authorization : Option String)
    (orders : List Order) (oid st : String) : Except Err (List Order) :=
  match setStatusFirst oid st orders with
  | some os => .ok os
  | none => .error .orderNotFound

end MainApp

namespace ServerApp

/-- A product document of `server.py` (`price`/`mrp` are Python floats,
modelled as rationals). -/
structure Product where
  id : String
  name : String
  description : String
  price : ℚ
  mrp : ℚ
  unit : String
  category_id : String
  image_url : String
  stock : Int
  is_available : Bool
deriving DecidableEq

/-- `db.products.find_one({"id": product_id})`. -/
def findProduct (catalog : List Product) (pid : String) : Option Product :=
  catalog.find? (fun p => p.id == pid)

/-- A cart line as stored by `server.py` (`{"product_id": ..., "quantity": ...}`;
no presentation snapshot — presentation is resolved live at read time). -/
structure CartLine where
  product_id : String
  quantity : Int
deriving DecidableEq

/-- The `CartItemResponse` model of `server.py`. -/
structure CartItemResponse where
  product_id : String
  name : String
  price : ℚ
  mrp : ℚ
  unit : String
  image_url : String
  quantity : Int
  subtotal : ℚ
deriving DecidableEq

/-- The item-building loop of `server.py`'s `get_cart`: lines whose product
no longer resolves are silently skipped. -/
def cartItems (catalog : List Product) : List CartLine → List CartItemResponse
  | [] => []
  | l :: ls =>
      match findProduct catalog l.product_id with
      | some p =>
          ⟨p.id, p.name, p.price, p.mrp, p.unit, p.image_url, l.quantity,
           p.price * (l.quantity : ℚ)⟩ :: cartItems catalog ls
      | none => cartItems catalog ls

/-- The `CartResponse` model of `server.py`. -/
structure CartResponse where
  items : List CartItemResponse
  total : ℚ
  item_count : Nat
  savings : ℚ
deriving DecidableEq

/-- `server.py` `get_cart`: resolve every line against the catalog, sum
`subtotal = price*quantity` into `total`, `mrp*quantity - subtotal` into
`savings`, and report `item_count = len(items)` (distinct surviving lines). -/
def get_cart (catalog : List Product) (lines : List CartLine) : CartResponse :=
  let items := cartItems catalog lines
  { items := items
    total := (items.map (fun i => i.subtotal)).sum
    item_count := items.length
    savings := (items.map (fun i => i.mrp * (i.quantity : ℚ) - i.subtotal)).sum }

/-- Mongo `$inc` through the positional operator `items.$.quantity`:
increments the first line matching `pid`. -/
def incFirst (pid : String) (qty : Int) : List CartLine → List CartLine
  | [] => []
  | l :: ls =>
      if l.product_id = pid then { l with quantity := l.quantity + qty } :: ls
      else l :: incFirst pid qty ls

/-- `server.py` `add_to_cart`: 404 if the product does not resolve; if a
line for the product already exists, `$inc` its quantity; otherwise `$push`
a new `{product_id, quantity}` line. -/
def add_to_cart (catalog : List Product) (lines : List CartLine)
    (pid : String) (qty : Int) : Except Err (List CartLine) :=
  match findProduct catalog pid with
  | none => .error .productNotFound
  | some _ =>
      if lines.any (fun l => l.product_id == pid) then
        .ok (incFirst pid qty lines)
      else
        .ok (lines ++ [⟨pid, qty⟩])

/-- The `CartItemAdd` request model defaults `quantity` to 1, so the
`POST /api/cart/add` route with an omitted quantity behaves as quantity 1. -/
def add_to_cart_route (catalog : List Product) (lines : List CartLine)
    (pid : String) (qty : Option Int) : Except Err (List CartLine) :=
  add_to_cart catalog lines pid (qty.getD 1)

/-- Mongo `$set` through the positional operator: sets the quantity of the
first line matching `pid`; a no-op when no line matches (the update filter
`items.product_id` matches no document). -/
def setQtyFirst (pid : String) (qty : Int) : List CartLine → List CartLine
  | [] => []
  | l :: ls =>
      if l.product_id = pid then { l with quantity := qty } :: ls
      else l :: setQtyFirst pid qty ls

/-- `server.py` `update_cart_item`: `quantity <= 0` pulls every line for the
product out of the cart; a positive quantity replaces the first matching
line's quantity; always succeeds. -/
def update_cart_item (lines : List CartLine) (pid : String) (qty : Int) :
    List CartLine :=
  if qty ≤ 0 then lines.filter (fun l => !(l.product_id == pid))
  else setQtyFirst pid qty lines

/-- `server.py` `remove_from_cart` (`$pull` by product id). -/
def remove_from_cart (lines : List CartLine) (pid : String) : List CartLine :=
  lines.filter (fun l => !(l.product_id == pid))

/-- `server.py` `clear_cart` (`$set items []`). -/
def clear_cart : List CartLine := []

/-- Python `int()` on a rational: truncation toward zero. -/
def pyTrunc (q : ℚ) : Int := if q < 0 then ⌈q⌉ else ⌊q⌋

/-- The discount computation shared by `get_products`, `get_product`,
`create_product` and `update_product`:
`int(((mrp - price) / mrp) * 100) if mrp > price else 0`.
A zero `mrp` with `mrp > price` is a Python `ZeroDivisionError`, surfaced
here as an error value. -/
def discount_percent (price mrp : ℚ) : Except Err Int :=
  if mrp > price then
    if mrp = 0 then .error .divisionByZero
    else .ok (pyTrunc ((mrp - price) / mrp * 100))
  else .ok 0

/-- A saved address of a user document. -/
structure Address where
  id : String
  full_name : String
  phone : String
  address_line1 : String
  address_line2 : String
  city : String
  state : String
  pincode : String
  is_default : Bool
deriving DecidableEq

/-- The frozen address copy embedded in an order document by `create_order`
(all fields but the internal id). -/
structure OrderAddress where
  full_name : String
  phone : String
  address_line1 : String
  address_line2 : String
  city : String
  state : String
  pincode : String
deriving DecidableEq

/-- The field-for-field address copy taken by `create_order`. -/
def freezeAddress (a : Address) : OrderAddress :=
  ⟨a.full_name, a.phone, a.address_line1, a.address_line2, a.city, a.state,
   a.pincode⟩

/-- An order line (`OrderItemResponse`): a frozen snapshot of catalog price
and cart quantity at placement time. -/
structure OrderItem where
  product_id : String
  name : String
  price : ℚ
  quantity : Int
  subtotal : ℚ
deriving DecidableEq

/-- The order-item loop of `server.py`'s `create_order`: each cart line is
resolved against the catalog at placement time; unresolvable lines are
dropped from the snapshot. -/
def orderItems (catalog : List Product) : List CartLine → List OrderItem
  | [] => []
  | l :: ls =>
      match findProduct catalog l.product_id with
      | some p =>
          ⟨p.id, p.name, p.price, l.quantity, p.price * (l.quantity : ℚ)⟩ ::
            orderItems catalog ls
      | none => orderItems catalog ls

/-- An order document of `server.py` (timestamps modelled as integer
minutes; `estimated_delivery = created_at + 15`). -/
structure Order where
  id : String
  user_id : String
  items : List OrderItem
  address : OrderAddress
  total : ℚ
  status : String
  payment_method : String
  created_at : Int
  estimated_delivery : Int
deriving DecidableEq

/-- `server.py` `create_order`: 400 `Cart is empty` on an empty cart; 400
`Address not found` when `address_id` is not among the caller's saved
addresses; otherwise snapshot the resolvable cart lines (dropping danglers),
sum their subtotals into `total`, freeze the address, stamp status
`"confirmed"`, and clear the cart.  Returns the order and the new (empty)
cart contents; on error nothing is written. -/
def create_order (catalog : List Product) (lines : List CartLine)
    (addresses : List Address) (address_id payment_method uid oid : String)
    (now : Int) : Except Err (Order × List CartLine) :=
  if lines.isEmpty then .error .emptyCart
  else
    match addresses.find? (fun a => a.id == address_id) with
    | none => .error .addressNotFound
    | some addr =>
        let its := orderItems catalog lines
        .ok ({ id := oid, user_id := uid, items := its,
               address := freezeAddress addr,
               total := (its.map (fun i => i.subtotal)).sum,
               status := "confirmed", payment_method := payment_method,
               created_at := now, estimated_delivery := now + 15 }, [])

/-- Descending insertion by `created_at` (Mongo `sort("created_at", -1)`). -/
def insertDesc (o : Order) : List Order → List Order
  | [] => [o]
  | x :: xs =>
      if x.created_at ≤ o.created_at then o :: x :: xs
      else x :: insertDesc o xs

/-- Sort orders most recent first. -/
def sortByCreatedDesc : List Order → List Order
  | [] => []
  | o :: os => insertDesc o (sortByCreatedDesc os)

/-- `server.py` `get_orders`: the caller's orders, most recent first. -/
def get_orders (orders : List Order) (uid : String) : List Order :=
  sortByCreatedDesc (orders.filter (fun o => o.user_id == uid))

/-- `server.py` `get_order`: an order fetched by id, scoped to its owner. -/
def get_order (orders : List Order) (oid uid : String) : Except Err Order :=
  match orders.find? (fun o => o.id == oid && o.user_id == uid) with
  | some o => .ok o
  | none => .error .orderNotFound

/-- A user document, as far as the core needs it. -/
structure User where
  id : String
  email : String
  is_admin : Bool
  addresses : List Address
deriving DecidableEq

/-- `server.py` `get_admin_user`: 403 unless the resolved user's
`is_admin` flag is set. -/
def get_admin_user (u : User) : Except Err User :=
  if u.is_admin then .ok u else .error .forbidden

/-- `server.py` `get_all_orders` (admin only): all orders, most recent
first; a non-admin identity is rejected before any read. -/
def get_all_orders (u : User) (orders : List Order) :
    Except Err (List Order) :=
  match get_admin_user u with
  | .error e => .error e
  | .ok _ => .ok (sortByCreatedDesc orders)

/-- The closed status set of `server.py` `update_order_status`. -/
def valid_statuses : List String :=
  ["confirmed", "preparing", "out_for_delivery", "delivered", "cancelled"]

/-- `$set {"status": st}` on the first order matching `oid` (`update_one`);
`none` when no order matches (`matched_count == 0`). -/
def setStatusFirst (oid st : String) : List Order → Option (List Order)
  | [] => none
  | o :: os =>
      if o.id = oid then some ({ o with status := st } :: os)
      else (setStatusFirst oid st os).map (o :: ·)

/-- `server.py` `update_order_status` (past the admin gate): 400 when the
status is not in the recognized set — checked before touching the order
store — then 404 when no order matches; otherwise write the status. -/
def update_order_status (orders : List Order) (oid st : String) :
    Except Err (List Order) :=
  if st ∈ valid_statuses then
    match setStatusFirst oid st orders with
    | some os => .ok os
    | none => .error .orderNotFound
  else .error .invalidStatus

/-- The order store after an `update_order_status` call: an error response
leaves the store untouched. -/
def orders_after (orders : List Order) (oid st : String) : List Order :=
  match update_order_status orders oid st with
  | .ok os => os
  | .error _ => orders

/-- The `PUT /api/admin/orders/{id}/status` route: the admin dependency
resolves first, so a non-admin caller is rejected before any validation or
write. -/
def update_order_status_route (u : User) (orders : List Order)
    (oid st : String) : Except Err (List Order) :=
  match get_admin_user u with
  | .error e => .error e
  | .ok _ => update_order_status orders oid st

/-- A category document (`CategoryCreate` plus its generated id). -/
structure Category where
  id : String
  name : String
  image_url : String
  display_order : Int
deriving DecidableEq

/-- The `ProductCreate` request model (everything but the generated id). -/
structure ProductCreate where
  name : String
  description : String
  price : ℚ
  mrp : ℚ
  unit : String
  category_id : String
  image_url : String
  stock : Int
  is_available : Bool
deriving DecidableEq

/-- The product document built from a `ProductCreate` payload and an id
(`create_product`'s insert, and the `$set model_dump()` of
`update_product`, which never touches the stored id). -/
def productOfCreate (pid : String) (pc : ProductCreate) : Product :=
  ⟨pid, pc.name, pc.description, pc.price, pc.mrp, pc.unit, pc.category_id,
   pc.image_url, pc.stock, pc.is_available⟩

/-- `$set product.model_dump()` on the first product matching `pid`;
`none` when `matched_count == 0`. -/
def setProductFirst (pid : String) (pc : ProductCreate) :
    List Product → Option (List Product)
  | [] => none
  | p :: ps =>
      if p.id = pid then some (productOfCreate pid pc :: ps)
      else (setProductFirst pid pc ps).map (p :: ·)

/-- `server.py` `update_product`: 404 when no product matches, otherwise
overwrite every payload field of the first matching product. -/
def update_product (products : List Product) (pid : String)
    (pc : ProductCreate) : Except Err (List Product) :=
  match setProductFirst pid pc products with
  | some ps => .ok ps
  | none => .error .productNotFound

/-- `db.products.delete_one`: removes the first matching document. -/
def deleteProductFirst (pid : String) : List Product → List Product
  | [] => []
  | p :: ps => if p.id = pid then ps else p :: deleteProductFirst pid ps

/-- `add_address`'s behavior on one user document: if the new address is
marked default or it is the user's first address, clear every sibling's
default flag and store the new address as the default; otherwise append
it as-is. -/
def addAddressUser (u : User) (a : Address) : User :=
  if a.is_default || u.addresses.isEmpty then
    { u with addresses :=
        (u.addresses.map (fun b => { b with is_default := false })) ++
          [{ a with is_default := true }] }
  else { u with addresses := u.addresses ++ [a] }

/-- Apply `f` to the first user matching `uid` (`db.users.update_one`). -/
def mapFirstUser (uid : String) (f : User → User) : List User → List User
  | [] => []
  | u :: us => if u.id = uid then f u :: us else u :: mapFirstUser uid f us

/-- Replace the stored cart of `uid` (first matching cart document);
`none` when the user has no cart document. -/
def setCartFirst (uid : String) (lines : List CartLine) :
    List (String × List CartLine) → Option (List (String × List CartLine))
  | [] => none
  | c :: cs =>
      if c.1 = uid then some ((uid, lines) :: cs)
      else (setCartFirst uid lines cs).map (c :: ·)

/-- The whole mutable store of `server.py`'s Mongo database, as far as the
cart/order core reaches it. -/
structure DB where
  users : List User
  categories : List Category
  products : List Product
  carts : List (String × List CartLine)
  orders : List Order
deriving DecidableEq

/-- The cart lines stored for `uid` (an absent cart document reads as an
empty cart). -/
def cartOf (db : DB) (uid : String) : List CartLine :=
  match db.carts.find? (fun c => c.1 == uid) with
  | some c => c.2
  | none => []

/-- Write back a user's cart: replace the first matching cart document, or
insert one when absent (`add_to_cart` inserts an empty cart first). -/
def writeCart (carts : List (String × List CartLine)) (uid : String)
    (lines : List CartLine) : List (String × List CartLine) :=
  match setCartFirst uid lines carts with
  | some cs => cs
  | none => carts ++ [(uid, lines)]

/-- Write back a user's cart only when a cart document exists
(`update_one` with no upsert is a no-op on an absent document). -/
def writeCartIfPresent (carts : List (String × List CartLine)) (uid : String)
    (lines : List CartLine) : List (String × List CartLine) :=
  match setCartFirst uid lines carts with
  | some cs => cs
  | none => carts

/-- The state-mutating endpoints of `server.py` (the read-only routes and
the one-shot `admin/seed` bootstrap — which inserts products, categories,
pincodes, users and carts but never an order — are not enumerated). -/
inductive Op where
  | register (uid email : String)
  | addAddress (uid : String) (a : Address)
  | deleteAddress (uid aid : String)
  | createCategory (c : Category)
  | createProduct (pid : String) (pc : ProductCreate)
  | updateProduct (pid : String) (pc : ProductCreate)
  | deleteProduct (pid : String)
  | addCart (uid pid : String) (qty : Int)
  | updateCart (uid pid : String) (qty : Int)
  | removeCart (uid pid : String)
  | clearCart (uid : String)
  | placeOrder (uid address_id payment_method oid : String) (now : Int)
  | setStatus (oid st : String)
deriving DecidableEq

/-- One request against the database: each arm is the write set of the
corresponding route; a route that fails with an HTTP error has written
nothing (every precondition in `server.py` is checked before its writes). -/
def applyOp (op : Op) (db : DB) : DB :=
  match op with
  | .register uid email =>
      if db.users.any (fun u => u.email == email) then db
      else { db with users := db.users ++ [⟨uid, email, false, []⟩],
                     carts := db.carts ++ [(uid, [])] }
  | .addAddress uid a =>
      { db with users := mapFirstUser uid (fun u => addAddressUser u a) db.users }
  | .deleteAddress uid aid =>
      let f := fun (u : User) =>
        { u with addresses := u.addresses.filter (fun b => !(b.id == aid)) }
      { db with users := mapFirstUser uid f db.users }
  | .createCategory c => { db with categories := db.categories ++ [c] }
  | .createProduct pid pc =>
      { db with products := db.products ++ [productOfCreate pid pc] }
  | .updateProduct pid pc =>
      match update_product db.products pid pc with
      | .ok ps => { db with products := ps }
      | .error _ => db
  | .deleteProduct pid => { db with products := deleteProductFirst pid db.products }
  | .addCart uid pid qty =>
      match add_to_cart db.products (cartOf db uid) pid qty with
      | .ok ls => { db with carts := writeCart db.carts uid ls }
      | .error _ => db
  | .updateCart uid pid qty =>
      { db with carts :=
          writeCartIfPresent db.carts uid (update_cart_item (cartOf db uid) pid qty) }
  | .removeCart uid pid =>
      { db with carts :=
          writeCartIfPresent db.carts uid (remove_from_cart (cartOf db uid) pid) }
  | .clearCart uid =>
      { db with carts := writeCartIfPresent db.carts uid clear_cart }
  | .placeOrder uid aid pm oid now =>
      match db.users.find? (fun u => u.id == uid) with
      | none => db
      | some u =>
          match create_order db.products (cartOf db uid) u.addresses aid pm uid oid now with
          | .ok (o, newLines) =>
              { db with orders := db.orders ++ [o],
                        carts := writeCartIfPresent db.carts uid newLines }
          | .error _ => db
  | .setStatus oid st =>
      match update_order_status db.orders oid st with
      | .ok os => { db with orders := os }
      | .error _ => db

/-- The catalog price a cart line resolves to (0 for a dangling line);
vocabulary for stating the pricing contract. -/
def linePrice (catalog : List Product) (l : CartLine) : ℚ :=
  match findProduct catalog l.product_id with
  | some p => p.price
  | none => 0

/-- The catalog MRP a cart line resolves to (0 for a dangling line). -/
def lineMrp (catalog : List Product) (l : CartLine) : ℚ :=
  match findProduct catalog l.product_id with
  | some p => p.mrp
  | none => 0

/-- Two order documents that agree on every field except possibly
`status`. -/
def sameExceptStatus (a b : Order) : Prop :=
  a.id = b.id ∧ a.user_id = b.user_id ∧ a.items = b.items ∧
    a.address = b.address ∧ a.total = b.total ∧
      a.payment_method = b.payment_method ∧ a.created_at = b.created_at ∧
        a.estimated_delivery = b.estimated_delivery

end ServerApp

/-! ### Concrete fixtures used by witnesses and counterexamples -/

/-- A catalog product priced at its MRP (no savings). -/
def exProductA : ServerApp.Product :=
  ⟨"prod-a", "Aashirvaad Atta 5kg", "Whole wheat flour", 320, 320, "5 kg",
   "cat-staples", "https://images.example/atta.jpg", 100, true⟩

/-- A catalog product priced below its MRP (price 28, MRP 30). -/
def exProductB : ServerApp.Product :=
  ⟨"prod-b", "Amul Toned Milk", "Fresh toned milk", 28, 30, "500 ml",
   "cat-dairy", "https://images.example/milk.jpg", 200, true⟩

/-- A two-product catalog. -/
def exCatalog : List ServerApp.Product := [exProductA, exProductB]

/-- The spec's pricing example: line A with quantity 1, line B with
quantity 2. -/
def exLines : List ServerApp.CartLine := [⟨"prod-a", 1⟩, ⟨"prod-b", 2⟩]

/-- A cart whose second line dangles (product deleted from the catalog). -/
def exLinesDangling : List ServerApp.CartLine := [⟨"prod-a", 1⟩, ⟨"ghost", 2⟩]

/-- A saved address. -/
def exAddress : ServerApp.Address :=
  ⟨"addr-1", "Asha", "9999999999", "1 MG Road", "", "Mumbai", "MH", "400001",
   true⟩

/-- A regular (non-admin) user owning `exAddress`. -/
def exUser : ServerApp.User := ⟨"user-1", "asha@example.com", false, [exAddress]⟩

/-- An already-placed order of `exUser` over product A. -/
def exOrder : ServerApp.Order :=
  ⟨"ORD1", "user-1", [⟨"prod-a", "Aashirvaad Atta 5kg", 320, 1, 320⟩],
   ServerApp.freezeAddress exAddress, 320, "confirmed", "COD", 0, 15⟩

/-- The order produced by placing `exLinesDangling`: only the resolvable
line survives. -/
def exOrder2 : ServerApp.Order :=
  ⟨"ORD2", "user-1", [⟨"prod-a", "Aashirvaad Atta 5kg", 320, 1, 320⟩],
   ServerApp.freezeAddress exAddress, 320, "confirmed", "COD", 0, 15⟩

/-- A database state with one user, the two-product catalog, one stored
cart and one existing order. -/
def exDB : ServerApp.DB :=
  ⟨[exUser], [], exCatalog, [("user-1", exLines)], [exOrder]⟩

/-- A product-update payload that changes product A's price to 999. -/
def exProductCreate : ServerApp.ProductCreate :=
  ⟨"Aashirvaad Atta 5kg", "Whole wheat flour", 999, 999, "5 kg",
   "cat-staples", "https://images.example/atta.jpg", 100, true⟩

/-- The spec's pricing example materialised as a `main.py` cart: product 1
(price 320) with quantity 1 and product 2 (price 28) with quantity 2. -/
def exMainItems : List MainApp.CartItem :=
  [⟨1, "Aashirvaad Atta 5kg", 320, "https://via.placeholder.com/150", 1⟩,
   ⟨2, "Amul Milk 500ml", 28, "https://via.placeholder.com/150", 2⟩]

/-- An order sitting in `main.py`'s `ORDERS` list. -/
def exMainOrder : MainApp.Order :=
  ⟨"o1", "u1", none, none, none, exMainItems, 376, "PLACED"⟩

/-! ### Helper lemmas about the embedded operations -/

lemma server_any_pid_false {lines : List ServerApp.CartLine} {pid : String}
    (h : ∀ l ∈ lines, l.product_id ≠ pid) :
    lines.any (fun l => l.product_id == pid) = false := by
  rw [List.any_eq_false]
  intro l hl
  simpa using h l hl

lemma server_cartItems_aggregates (catalog : List ServerApp.Product) :
    ∀ lines : List ServerApp.CartLine,
      (∀ l ∈ lines, (ServerApp.findProduct catalog l.product_id).isSome) →
      ((ServerApp.cartItems catalog lines).map (fun i => i.subtotal)).sum
          = (lines.map
              (fun l => ServerApp.linePrice catalog l * (l.quantity : ℚ))).sum
      ∧ ((ServerApp.cartItems catalog lines).map
            (fun i => i.mrp * (i.quantity : ℚ) - i.subtotal)).sum
          = (lines.map (fun l =>
              (ServerApp.lineMrp catalog l - ServerApp.linePrice catalog l)
                * (l.quantity : ℚ))).sum
      ∧ (ServerApp.cartItems catalog lines).length = lines.length := by
  intro lines
  induction lines with
  | nil => intro _; simp [ServerApp.cartItems]
  | cons l ls ih =>
      intro h
      obtain ⟨p, hp⟩ := Option.isSome_iff_exists.mp (h l (List.mem_cons_self _ _))
      obtain ⟨h1, h2, h3⟩ := ih (fun x hx => h x (List.mem_cons_of_mem _ hx))
      have hm : ServerApp.lineMrp catalog l = p.mrp := by
        simp [ServerApp.lineMrp, hp]
      have hpr : ServerApp.linePrice catalog l = p.price := by
        simp [ServerApp.linePrice, hp]
      refine ⟨?_, ?_, ?_⟩
      · simp only [ServerApp.cartItems, hp, List.map_cons, List.sum_cons, h1, hpr]
      · simp only [ServerApp.cartItems, hp, List.map_cons, List.sum_cons, h2, hm,
          hpr, sub_mul]
      · simp [ServerApp.cartItems, hp, h3]

lemma server_setStatusFirst_none (oid st : String) :
    ∀ orders : List ServerApp.Order, (∀ o ∈ orders, o.id ≠ oid) →
      ServerApp.setStatusFirst oid st orders = none := by
  intro orders
  induction orders with
  | nil => intro _; rfl
  | cons o os ih =>
      intro h
      simp [ServerApp.setStatusFirst, h o (List.mem_cons_self _ _),
        ih (fun x hx => h x (List.mem_cons_of_mem _ hx))]

lemma server_sameExceptStatus_refl :
    ∀ l : List ServerApp.Order, List.Forall₂ ServerApp.sameExceptStatus l l := by
  intro l
  induction l with
  | nil => exact List.Forall₂.nil
  | cons o os ih =>
      exact List.Forall₂.cons ⟨rfl, rfl, rfl, rfl, rfl, rfl, rfl, rfl⟩ ih

lemma server_setStatusFirst_forall2 (oid st : String) :
    ∀ orders os : List ServerApp.Order,
      ServerApp.setStatusFirst oid st orders = some os →
      List.Forall₂ ServerApp.sameExceptStatus orders os := by
  intro orders
  induction orders with
  | nil => intro os h; simp [ServerApp.setStatusFirst] at h
  | cons o rest ih =>
      intro os h
      by_cases ho : o.id = oid
      · rw [ServerApp.setStatusFirst, if_pos ho] at h
        cases h
        exact List.Forall₂.cons ⟨rfl, rfl, rfl, rfl, rfl, rfl, rfl, rfl⟩
          (server_sameExceptStatus_refl rest)
      · rw [ServerApp.setStatusFirst, if_neg ho] at h
        cases hrec : ServerApp.setStatusFirst oid st rest with
        | none => rw [hrec] at h; simp at h
        | some os' =>
            rw [hrec] at h
            simp only [Option.map_some'] at h
            cases h
            exact List.Forall₂.cons ⟨rfl, rfl, rfl, rfl, rfl, rfl, rfl, rfl⟩
              (ih os' hrec)

lemma server_update_order_status_ok {orders os : List ServerApp.Order}
    {oid st : String}
    (h : ServerApp.update_order_status orders oid st = .ok os) :
    ServerApp.setStatusFirst oid st orders = some os := by
  rw [ServerApp.update_order_status] at h
  by_cases hv : st ∈ ServerApp.valid_statuses
  · rw [if_pos hv] at h
    cases hs : ServerApp.setStatusFirst oid st orders with
    | none => rw [hs] at h; cases h
    | some os' =>
        rw [hs] at h
        cases h
        rfl
  · rw [if_neg hv] at h
    cases h

lemma server_incFirst_append (pid : String) (qty q0 : Int)
    (post : List ServerApp.CartLine) :
    ∀ pre : List ServerApp.CartLine, (∀ l ∈ pre, l.product_id ≠ pid) →
      ServerApp.incFirst pid qty (pre ++ ⟨pid, q0⟩ :: post)
        = pre ++ ⟨pid, q0 + qty⟩ :: post := by
  intro pre
  induction pre with
  | nil => intro _; simp [ServerApp.incFirst]
  | cons x xs ih =>
      intro h
      simp [ServerApp.incFirst, h x (List.mem_cons_self _ _),
        ih (fun l hl => h l (List.mem_cons_of_mem _ hl))]

lemma server_add_not_mem {catalog : List ServerApp.Product}
    {pid : String} {p : ServerApp.Product}
    (hp : ServerApp.findProduct catalog pid = some p)
    {lines : List ServerApp.CartLine}
    (h : ∀ l ∈ lines, l.product_id ≠ pid) (qty : Int) :
    ServerApp.add_to_cart catalog lines pid qty = .ok (lines ++ [⟨pid, qty⟩]) := by
  simp [ServerApp.add_to_cart, hp, server_any_pid_false h]

lemma server_add_mem {catalog : List ServerApp.Product}
    {pid : String} {p : ServerApp.Product}
    (hp : ServerApp.findProduct catalog pid = some p)
    {pre : List ServerApp.CartLine}
    (hpre : ∀ l ∈ pre, l.product_id ≠ pid)
    (q0 qty : Int) (post : List ServerApp.CartLine) :
    ServerApp.add_to_cart catalog (pre ++ ⟨pid, q0⟩ :: post) pid qty
      = .ok (pre ++ ⟨pid, q0 + qty⟩ :: post) := by
  have hany : (pre ++ (⟨pid, q0⟩ : ServerApp.CartLine) :: post).any
      (fun l => l.product_id == pid) = true := by
    simp
  simp [ServerApp.add_to_cart, hp, hany,
    server_incFirst_append pid qty q0 post pre hpre]

lemma server_setQtyFirst_not_mem (pid : String) (qty : Int) :
    ∀ lines : List ServerApp.CartLine, (∀ l ∈ lines, l.product_id ≠ pid) →
      ServerApp.setQtyFirst pid qty lines = lines := by
  intro lines
  induction lines with
  | nil => intro _; rfl
  | cons x xs ih =>
      intro h
      simp [ServerApp.setQtyFirst, h x (List.mem_cons_self _ _),
        ih (fun l hl => h l (List.mem_cons_of_mem _ hl))]

lemma server_setQtyFirst_append (pid : String) (qty q0 : Int)
    (post : List ServerApp.CartLine) :
    ∀ pre : List ServerApp.CartLine, (∀ l ∈ pre, l.product_id ≠ pid) →
      ServerApp.setQtyFirst pid qty (pre ++ ⟨pid, q0⟩ :: post)
        = pre ++ ⟨pid, qty⟩ :: post := by
  intro pre
  induction pre with
  | nil => intro _; simp [ServerApp.setQtyFirst]
  | cons x xs ih =>
      intro h
      simp [ServerApp.setQtyFirst, h x (List.mem_cons_self _ _),
        ih (fun l hl => h l (List.mem_cons_of_mem _ hl))]

lemma server_orderItems_length (catalog : List ServerApp.Product) :
    ∀ lines : List ServerApp.CartLine,
      (ServerApp.orderItems catalog lines).length
        = (lines.filter
            (fun l => (ServerApp.findProduct catalog l.product_id).isSome)).length := by
  intro lines
  induction lines with
  | nil => rfl
  | cons l ls ih =>
      cases hp : ServerApp.findProduct catalog l.product_id with
      | none => simp [ServerApp.orderItems, hp, List.filter, ih]
      | some p => simp [ServerApp.orderItems, hp, List.filter, ih]

lemma server_orderItems_resolve (catalog : List ServerApp.Product) :
    ∀ lines : List ServerApp.CartLine,
      ∀ it ∈ ServerApp.orderItems catalog lines,
        ∃ p, ServerApp.findProduct catalog it.product_id = some p
          ∧ it.price = p.price
          ∧ it.subtotal = p.price * (it.quantity : ℚ) := by
  intro lines
  induction lines with
  | nil => intro it hit; simp [ServerApp.orderItems] at hit
  | cons l ls ih =>
      intro it hit
      cases hp : ServerApp.findProduct catalog l.product_id with
      | none =>
          rw [ServerApp.orderItems, hp] at hit
          exact ih it hit
      | some p =>
          rw [ServerApp.orderItems, hp] at hit
          cases hit with
          | tail _ h => exact ih it h
          | head =>
              refine ⟨p, ?_, rfl, rfl⟩
              have hbeq := List.find?_some hp
              have hid : p.id = l.product_id := by simpa using hbeq
              simpa [hid] using hp

lemma server_orderItems_total (catalog : List ServerApp.Product) :
    ∀ lines : List ServerApp.CartLine,
      ((ServerApp.orderItems catalog lines).map (fun i => i.subtotal)).sum
        = ((ServerApp.orderItems catalog lines).map
            (fun i => i.price * (i.quantity : ℚ))).sum := by
  intro lines
  induction lines with
  | nil => rfl
  | cons l ls ih =>
      cases hp : ServerApp.findProduct catalog l.product_id with
      | none => simp [ServerApp.orderItems, hp, ih]
      | some p => simp [ServerApp.orderItems, hp, ih]

lemma main_incFirst_append (pid : Nat) (qty : Int) (x : MainApp.CartItem)
    (post : List MainApp.CartItem) (hx : x.product_id = pid) :
    ∀ pre : List MainApp.CartItem, (∀ i ∈ pre, i.product_id ≠ pid) →
      MainApp.incFirst pid qty (pre ++ x :: post)
        = pre ++ { x with quantity := x.quantity + qty } :: post := by
  intro pre
  induction pre with
  | nil => intro _; simp [MainApp.incFirst, hx]
  | cons y ys ih =>
      intro h
      simp [MainApp.incFirst, h y (List.mem_cons_self _ _),
        ih (fun i hi => h i (List.mem_cons_of_mem _ hi))]

lemma main_any_pid_false {items : List MainApp.CartItem} {pid : Nat}
    (h : ∀ i ∈ items, i.product_id ≠ pid) :
    items.any (fun i => i.product_id == pid) = false := by
  rw [List.any_eq_false]
  intro i hi
  simpa using h i hi

lemma main_add_not_mem {pid : Nat} {p : MainApp.Product}
    (hp : MainApp.PRODUCTS.find? (fun q => q.id == pid) = some p)
    {items : List MainApp.CartItem}
    (h : ∀ i ∈ items, i.product_id ≠ pid) (qty : Int) :
    MainApp.add_to_cart items pid qty
      = .ok (items ++ [⟨pid, p.name, p.price, p.image, qty⟩]) := by
  simp [MainApp.add_to_cart, hp, main_any_pid_false h]

lemma main_add_mem {pid : Nat} {p : MainApp.Product}
    (hp : MainApp.PRODUCTS.find? (fun q => q.id == pid) = some p)
    {pre : List MainApp.CartItem} {x : MainApp.CartItem}
    (hx : x.product_id = pid)
    (hpre : ∀ i ∈ pre, i.product_id ≠ pid)
    (qty : Int) (post : List MainApp.CartItem) :
    MainApp.add_to_cart (pre ++ x :: post) pid qty
      = .ok (pre ++ { x with quantity := x.quantity + qty } :: post) := by
  have hany : (pre ++ x :: post).any (fun i => i.product_id == pid) = true := by
    simp [hx]
  simp [MainApp.add_to_cart, hp, hany, main_incFirst_append pid qty x post hx pre hpre]

/-! ### Claim C1 — cart pricing aggregates -/

/-- C1 counterexample: on the in-memory snapshot (`main.py`), `get_cart`
over the claim's example cart (price 320 × 1 and price 28 × 2) reports
`item_count = 3` (the sum of quantities, not the 2 distinct lines the claim
requires) and `savings = 0` (not 4); the claim as stated is false on that
snapshot's `get_cart`. -/
theorem main_get_cart_pricing_example :
    (MainApp.get_cart exMainItems).total = 376
    ∧ (MainApp.get_cart exMainItems).item_count = 3
    ∧ (MainApp.get_cart exMainItems).savings = 0 := by
  refine ⟨?_, ?_, rfl⟩ <;> decide

/-- C1 (amended to the database-backed snapshot `server.py`): when every
cart line resolves in the catalog, `get_cart` returns `total` equal to the
sum over lines of price × quantity, `savings` equal to the sum over lines
of (mrp − price) × quantity, and `item_count` equal to the number of
distinct lines. -/
theorem server_get_cart_pricing (catalog : List ServerApp.Product)
    (lines : List ServerApp.CartLine)
    (h : ∀ l ∈ lines, (ServerApp.findProduct catalog l.product_id).isSome) :
    (ServerApp.get_cart catalog lines).total
        = (lines.map
            (fun l => ServerApp.linePrice catalog l * (l.quantity : ℚ))).sum
    ∧ (ServerApp.get_cart catalog lines).savings
        = (lines.map (fun l =>
            (ServerApp.lineMrp catalog l - ServerApp.linePrice catalog l)
              * (l.quantity : ℚ))).sum
    ∧ (ServerApp.get_cart catalog lines).item_count = lines.length := by
  obtain ⟨h1, h2, h3⟩ := server_cartItems_aggregates catalog lines h
  exact ⟨h1, h2, h3⟩

/-- C1 witness: the claim's concrete example — lines {A: price 320, mrp
320, qty 1}, {B: price 28, mrp 30, qty 2} — yields total 376, savings 4,
item_count 2 on `server.py`'s `get_cart`. -/
theorem server_get_cart_pricing_witness :
    (ServerApp.get_cart exCatalog exLines).total = 376
    ∧ (ServerApp.get_cart exCatalog exLines).savings = 4
    ∧ (ServerApp.get_cart exCatalog exLines).item_count = 2 := by
  obtain ⟨h1, h2, h3⟩ := server_get_cart_pricing exCatalog exLines (by decide)
  have hab : ("prod-a" == "prod-b") = false := by decide
  have haa : ("prod-a" == "prod-a") = true := by decide
  have hbb : ("prod-b" == "prod-b") = true := by decide
  refine ⟨?_, ?_, ?_⟩
  · rw [h1]
    norm_num [exLines, ServerApp.linePrice, ServerApp.findProduct, exCatalog,
      exProductA, exProductB, List.find?, hab, haa, hbb]
  · rw [h2]
    norm_num [exLines, ServerApp.linePrice, ServerApp.lineMrp,
      ServerApp.findProduct, exCatalog, exProductA, exProductB, List.find?,
      hab, haa, hbb]
  · rw [h3]; rfl

/-! ### Claim C2 — status validation on `set_status` -/

/-- C2 counterexample: on the in-memory snapshot, the status-update route
accepts the unrecognized status `"BOGUS"` on an existing order and stores
it, instead of failing with `InvalidStatus` and leaving the status
unchanged. -/
theorem main_set_status_accepts_bogus :
    MainApp.admin_update_order_status none [exMainOrder] "o1" "BOGUS"
      = .ok [{ exMainOrder with status := "BOGUS" }]
    ∧ "BOGUS" ∉ ServerApp.valid_statuses := by
  exact ⟨by decide, by decide⟩

/-- C2 (amended to `server.py`): `update_order_status` fails with
`InvalidStatus` for a status outside the recognized set and leaves the
order store unchanged, and fails with `OrderNotFound` when the status is
recognized but no order carries the identifier. -/
theorem server_update_order_status_gate (orders : List ServerApp.Order)
    (oid st : String) :
    (st ∉ ServerApp.valid_statuses →
      ServerApp.update_order_status orders oid st = .error .invalidStatus
      ∧ ServerApp.orders_after orders oid st = orders)
    ∧ (st ∈ ServerApp.valid_statuses → (∀ o ∈ orders, o.id ≠ oid) →
      ServerApp.update_order_status orders oid st = .error .orderNotFound) := by
  constructor
  · intro hv
    have he : ServerApp.update_order_status orders oid st = .error .invalidStatus := by
      simp [ServerApp.update_order_status, hv]
    exact ⟨he, by simp [ServerApp.orders_after, he]⟩
  · intro hv hno
    simp [ServerApp.update_order_status, hv,
      server_setStatusFirst_none oid st orders hno]

/-- C2 witness: `"BOGUS"` on the stored order is rejected as
`InvalidStatus` with the store unchanged, and a recognized status on an
unknown order id is rejected as `OrderNotFound`. -/
theorem server_update_order_status_gate_witness :
    ServerApp.update_order_status [exOrder] "ORD1" "BOGUS"
        = .error .invalidStatus
    ∧ ServerApp.orders_after [exOrder] "ORD1" "BOGUS" = [exOrder]
    ∧ ServerApp.update_order_status [exOrder] "missing" "preparing"
        = .error .orderNotFound := by
  obtain ⟨h1, h2⟩ :=
    (server_update_order_status_gate [exOrder] "ORD1" "BOGUS").1 (by decide)
  exact ⟨h1, h2,
    (server_update_order_status_gate [exOrder] "missing" "preparing").2
      (by decide) (by decide)⟩

/-! ### Claim C3 — admin gating of the order-administration routes -/

/-- C3 counterexample: on the in-memory snapshot the admin order routes
carry no identity dependency at all — a caller with no credential
(`Authorization` absent, hence certainly not an admin) receives the full
order listing and can set a status, instead of failing with `Forbidden`. -/
theorem main_admin_routes_unguarded :
    MainApp.admin_get_orders none [exMainOrder] = .ok [exMainOrder]
    ∧ MainApp.admin_update_order_status none [exMainOrder] "o1" "PREPARING"
        = .ok [{ exMainOrder with status := "PREPARING" }] := by
  exact ⟨rfl, by decide⟩

/-- C3 (amended to `server.py`): both the all-orders listing and the
status-update route resolve the admin dependency first, so any caller
whose identity is not admin fails with `Forbidden` before any order is
read or written. -/
theorem server_admin_gate (u : ServerApp.User) (h : u.is_admin = false)
    (orders : List ServerApp.Order) (oid st : String) :
    ServerApp.get_all_orders u orders = .error .forbidden
    ∧ ServerApp.update_order_status_route u orders oid st
        = .error .forbidden := by
  constructor
  · simp [ServerApp.get_all_orders, ServerApp.get_admin_user, h]
  · simp [ServerApp.update_order_status_route, ServerApp.get_admin_user, h]

/-- C3 witness: the concrete non-admin user is rejected with `Forbidden`
by both admin routes. -/
theorem server_admin_gate_witness :
    ServerApp.get_all_orders exUser [exOrder] = .error .forbidden
    ∧ ServerApp.update_order_status_route exUser [exOrder] "ORD1" "preparing"
        = .error .forbidden :=
  server_admin_gate exUser rfl [exOrder] "ORD1" "preparing"

/-! ### Claim C4 — update semantics (remove on non-positive, replace) -/

/-- C4 counterexample: on the in-memory snapshot, `update_cart` with
quantity 0 keeps the line and stores the non-positive quantity instead of
removing it. -/
theorem main_update_cart_stores_nonpositive :
    MainApp.update_cart
        [⟨1, "Aashirvaad Atta 5kg", 320, "https://via.placeholder.com/150", 2⟩]
        1 0
      = [⟨1, "Aashirvaad Atta 5kg", 320, "https://via.placeholder.com/150", 0⟩] := by
  decide

/-- C4 (amended to `server.py`): `update_cart_item` with quantity ≤ 0
removes every line for the product (never storing a non-positive
quantity); with a positive quantity it is a no-op success when the product
is absent from the cart, and otherwise replaces the matching line's
quantity with exactly the given value (not accumulating). -/
theorem server_update_cart_item_semantics (pid : String) (qty : Int) :
    (∀ lines : List ServerApp.CartLine, qty ≤ 0 →
      ServerApp.update_cart_item lines pid qty
          = lines.filter (fun l => !(l.product_id == pid))
      ∧ ∀ l ∈ ServerApp.update_cart_item lines pid qty, l.product_id ≠ pid)
    ∧ (∀ lines : List ServerApp.CartLine, 0 < qty →
        (∀ l ∈ lines, l.product_id ≠ pid) →
        ServerApp.update_cart_item lines pid qty = lines)
    ∧ (∀ (pre post : List ServerApp.CartLine) (q0 : Int), 0 < qty →
        (∀ l ∈ pre, l.product_id ≠ pid) →
        ServerApp.update_cart_item (pre ++ ⟨pid, q0⟩ :: post) pid qty
          = pre ++ ⟨pid, qty⟩ :: post) := by
  refine ⟨?_, ?_, ?_⟩
  · intro lines hq
    have he : ServerApp.update_cart_item lines pid qty
        = lines.filter (fun l => !(l.product_id == pid)) := by
      simp [ServerApp.update_cart_item, hq]
    refine ⟨he, ?_⟩
    rw [he]
    intro l hl
    have := List.of_mem_filter hl
    simpa using this
  · intro lines hq hno
    rw [ServerApp.update_cart_item, if_neg (not_le.mpr hq)]
    exact server_setQtyFirst_not_mem pid qty lines hno
  · intro pre post q0 hq hpre
    rw [ServerApp.update_cart_item, if_neg (not_le.mpr hq)]
    exact server_setQtyFirst_append pid qty q0 post pre hpre

/-- C4 witness: quantity 0 removes the stored line; a positive update for
a product not in the cart is a no-op; `update(p, 4)` on a line previously
accumulated to 5 leaves exactly 4. -/
theorem server_update_cart_item_semantics_witness :
    ServerApp.update_cart_item [⟨"prod-a", 2⟩] "prod-a" 0 = []
    ∧ ServerApp.update_cart_item [⟨"prod-a", 2⟩] "prod-b" 5 = [⟨"prod-a", 2⟩]
    ∧ ServerApp.update_cart_item [⟨"prod-b", 5⟩] "prod-b" 4 = [⟨"prod-b", 4⟩] := by
  refine ⟨?_, ?_, ?_⟩
  · have h := ((server_update_cart_item_semantics "prod-a" 0).1
      [⟨"prod-a", 2⟩] (by decide)).1
    rw [h]; decide
  · have h := (server_update_cart_item_semantics "prod-b" 5).2.1
      [⟨"prod-a", 2⟩] (by decide) (by decide)
    exact h
  · have h := (server_update_cart_item_semantics "prod-b" 4).2.2
      [] [] 5 (by decide) (by decide)
    simpa using h

/-! ### Claim C5 — empty-cart rejection, in both snapshots -/

/-- C5: in both snapshots, placing an order on an empty cart fails with
the empty-cart error and (in the database model) changes nothing; and any
successful placement leaves the cart empty, so an immediate second
placement fails with the same error. -/
theorem place_order_empty_cart_gate :
    (∀ uid oid name phone addr,
      MainApp.place_order [] uid oid name phone addr = .error .emptyCart)
    ∧ (∀ catalog addresses aid pm uid oid now,
      ServerApp.create_order catalog [] addresses aid pm uid oid now
        = .error .emptyCart)
    ∧ (∀ items uid oid name phone addr o rest,
      MainApp.place_order items uid oid name phone addr = .ok (o, rest) →
        ∀ uid2 oid2 n2 p2 a2,
          MainApp.place_order rest uid2 oid2 n2 p2 a2 = .error .emptyCart)
    ∧ (∀ catalog lines addresses aid pm uid oid now o rest,
      ServerApp.create_order catalog lines addresses aid pm uid oid now
          = .ok (o, rest) →
        ∀ catalog2 addresses2 aid2 pm2 uid2 oid2 now2,
          ServerApp.create_order catalog2 rest addresses2 aid2 pm2 uid2 oid2 now2
            = .error .emptyCart)
    ∧ (∀ (db : ServerApp.DB) uid aid pm oid now,
      ServerApp.cartOf db uid = [] →
        ServerApp.applyOp (.placeOrder uid aid pm oid now) db = db) := by
  refine ⟨?_, ?_, ?_, ?_, ?_⟩
  · intro uid oid name phone addr
    rfl
  · intro catalog addresses aid pm uid oid now
    rfl
  · intro items uid oid name phone addr o rest h
    intro uid2 oid2 n2 p2 a2
    rw [MainApp.place_order] at h
    by_cases hi : items.isEmpty
    · rw [if_pos hi] at h; cases h
    · rw [if_neg hi] at h
      have hrest : rest = [] := by
        have := (Except.ok.injEq _ _).mp h
        exact (Prod.mk.injEq _ _ _ _).mp this |>.2.symm
      rw [hrest]
      rfl
  · intro catalog lines addresses aid pm uid oid now o rest h
    intro catalog2 addresses2 aid2 pm2 uid2 oid2 now2
    rw [ServerApp.create_order] at h
    by_cases hi : lines.isEmpty
    · rw [if_pos hi] at h; cases h
    · rw [if_neg hi] at h
      cases ha : addresses.find? (fun a => a.id == aid) with
      | none => rw [ha] at h; cases h
      | some addr =>
          rw [ha] at h
          have hrest : rest = [] := by
            have := (Except.ok.injEq _ _).mp h
            exact (Prod.mk.injEq _ _ _ _).mp this |>.2.symm
          rw [hrest]
          rfl
  · intro db uid aid pm oid now h
    rw [ServerApp.applyOp]
    cases hu : db.users.find? (fun u => u.id == uid) with
    | none => rfl
    | some u => rw [h]; rfl

/-- C5 witness: concrete empty carts are rejected in both snapshots; a
concrete successful placement hands back an empty cart whose immediate
re-placement is rejected; and the database state is untouched when a user
with no cart lines places an order. -/
theorem place_order_empty_cart_gate_witness :
    MainApp.place_order [] "u1" "o1" none none none = .error .emptyCart
    ∧ ServerApp.create_order exCatalog [] [exAddress] "addr-1" "COD"
        "user-1" "ORD9" 0 = .error .emptyCart
    ∧ MainApp.place_order [] "u1" "o2" none none none = .error .emptyCart
    ∧ ServerApp.applyOp (.placeOrder "nobody" "addr-1" "COD" "ORD9" 0) exDB
        = exDB := by
  refine ⟨place_order_empty_cart_gate.1 "u1" "o1" none none none,
    place_order_empty_cart_gate.2.1 exCatalog [exAddress] "addr-1" "COD"
      "user-1" "ORD9" 0, ?_, ?_⟩
  · exact place_order_empty_cart_gate.2.2.1 exMainItems "u1" "o1"
      (some "Asha") (some "9999999999") (some "1 MG Road")
      ⟨"o1", "u1", some "Asha", some "9999999999", some "1 MG Road",
        exMainItems, 376, "PLACED"⟩ []
      (by decide) "u1" "o2" none none none
  · exact place_order_empty_cart_gate.2.2.2.2 exDB "nobody" "addr-1" "COD"
      "ORD9" 0 (by decide)

/-! ### Claim C6 — order snapshot built from the catalog at placement time -/

/-- C6: a successful `create_order` snapshots exactly the cart lines whose
product resolves in the catalog at placement time (dangling lines are
dropped, not an error); every surviving order line carries the catalog
price, and the order total is the sum of the surviving lines'
price × quantity subtotals. -/
theorem server_create_order_snapshot (catalog : List ServerApp.Product)
    (lines : List ServerApp.CartLine) (addresses : List ServerApp.Address)
    (aid pm uid oid : String) (now : Int)
    (o : ServerApp.Order) (rest : List ServerApp.CartLine)
    (h : ServerApp.create_order catalog lines addresses aid pm uid oid now
      = .ok (o, rest)) :
    o.items = ServerApp.orderItems catalog lines
    ∧ (∀ it ∈ o.items, ∃ p,
        ServerApp.findProduct catalog it.product_id = some p
        ∧ it.price = p.price
        ∧ it.subtotal = p.price * (it.quantity : ℚ))
    ∧ o.items.length = (lines.filter
        (fun l => (ServerApp.findProduct catalog l.product_id).isSome)).length
    ∧ o.total = (o.items.map (fun it => it.price * (it.quantity : ℚ))).sum := by
  rw [ServerApp.create_order] at h
  by_cases hi : lines.isEmpty
  · rw [if_pos hi] at h; cases h
  · rw [if_neg hi] at h
    cases ha : addresses.find? (fun a => a.id == aid) with
    | none => rw [ha] at h; cases h
    | some addr =>
        rw [ha] at h
        have ho : o = { id := oid, user_id := uid,
                        items := ServerApp.orderItems catalog lines,
                        address := ServerApp.freezeAddress addr,
                        total := ((ServerApp.orderItems catalog lines).map (fun i => i.subtotal)).sum,
                        status := "confirmed", payment_method := pm,
                        created_at := now, estimated_delivery := now + 15 } := by
          have := (Except.ok.injEq _ _).mp h
          exact ((Prod.mk.injEq _ _ _ _).mp this).1.symm
        subst ho
        refine ⟨rfl, server_orderItems_resolve catalog lines, ?_, ?_⟩
        · exact server_orderItems_length catalog lines
        · exact server_orderItems_total catalog lines

/-- C6 witness: placing the cart with one resolvable line and one dangling
line succeeds, drops the dangling line, and totals the surviving line at
its catalog price. -/
theorem server_create_order_snapshot_witness :
    exOrder2.items = ServerApp.orderItems exCatalog exLinesDangling
    ∧ exOrder2.items.length = (exLinesDangling.filter
        (fun l => (ServerApp.findProduct exCatalog l.product_id).isSome)).length
    ∧ exOrder2.total
        = (exOrder2.items.map (fun it => it.price * (it.quantity : ℚ))).sum
    ∧ exOrder2.items.length = 1 := by
  have h : ServerApp.create_order exCatalog exLinesDangling [exAddress]
      "addr-1" "COD" "user-1" "ORD2" 0 = .ok (exOrder2, []) := by
    have hag : ("prod-a" == "ghost") = false := by decide
    have hbg : ("prod-b" == "ghost") = false := by decide
    have haa : ("prod-a" == "prod-a") = true := by decide
    have had : ("addr-1" == "addr-1") = true := by decide
    norm_num [ServerApp.create_order, ServerApp.orderItems,
      ServerApp.findProduct, ServerApp.freezeAddress, exLinesDangling,
      exCatalog, exProductA, exProductB, exAddress, exOrder2, List.find?,
      hag, hbg, haa, had]
  obtain ⟨h1, _, h3, h4⟩ := server_create_order_snapshot exCatalog
    exLinesDangling [exAddress] "addr-1" "COD" "user-1" "ORD2" 0 exOrder2 [] h
  exact ⟨h1, h3, h4, by decide⟩

/-! ### Claim C7 — order snapshot immutability -/

/-- C7: across every mutating endpoint of `server.py`, an operation other
than the status update can only append to the order store — every existing
order document is preserved field-for-field (in particular a product
update, e.g. a price change, leaves the orders exactly as they were, so a
re-fetch returns the same per-item prices and total); and the status
update itself rewrites at most the `status` field of an order, keeping
`items`, `address`, `total`, `payment_method` and both timestamps. -/
theorem server_orders_frame (db : ServerApp.DB) :
    (∀ op : ServerApp.Op, (∀ oid st, op ≠ ServerApp.Op.setStatus oid st) →
      ∃ tail, (ServerApp.applyOp op db).orders = db.orders ++ tail)
    ∧ (∀ pid pc,
      (ServerApp.applyOp (ServerApp.Op.updateProduct pid pc) db).orders
        = db.orders)
    ∧ (∀ oid st, List.Forall₂ ServerApp.sameExceptStatus db.orders
        (ServerApp.applyOp (ServerApp.Op.setStatus oid st) db).orders) := by
  refine ⟨?_, ?_, ?_⟩
  · intro op hop
    cases op with
    | register uid email =>
        refine ⟨[], ?_⟩
        rw [ServerApp.applyOp]
        split <;> simp
    | addAddress uid a => exact ⟨[], (List.append_nil _).symm⟩
    | deleteAddress uid aid => exact ⟨[], (List.append_nil _).symm⟩
    | createCategory c => exact ⟨[], (List.append_nil _).symm⟩
    | createProduct pid pc => exact ⟨[], (List.append_nil _).symm⟩
    | updateProduct pid pc =>
        refine ⟨[], ?_⟩
        rw [ServerApp.applyOp]
        cases ServerApp.update_product db.products pid pc <;> simp
    | deleteProduct pid => exact ⟨[], (List.append_nil _).symm⟩
    | addCart uid pid qty =>
        refine ⟨[], ?_⟩
        rw [ServerApp.applyOp]
        cases ServerApp.add_to_cart db.products (ServerApp.cartOf db uid) pid qty
          <;> simp
    | updateCart uid pid qty => exact ⟨[], (List.append_nil _).symm⟩
    | removeCart uid pid => exact ⟨[], (List.append_nil _).symm⟩
    | clearCart uid => exact ⟨[], (List.append_nil _).symm⟩
    | placeOrder uid aid pm oid now =>
        rw [ServerApp.applyOp]
        split
        · exact ⟨[], (List.append_nil _).symm⟩
        · split
          · next o newLines heq => exact ⟨[o], rfl⟩
          · exact ⟨[], (List.append_nil _).symm⟩
    | setStatus oid st => exact absurd rfl (hop oid st)
  · intro pid pc
    rw [ServerApp.applyOp]
    split <;> rfl
  · intro oid st
    rw [ServerApp.applyOp]
    split
    · next os hs =>
        exact server_setStatusFirst_forall2 oid st db.orders os
          (server_update_order_status_ok hs)
    · exact server_sameExceptStatus_refl db.orders

/-- C7 witness: on the concrete database, a product-price update for the
ordered product leaves the order store untouched, and a cart mutation adds
no order and rewrites none. -/
theorem server_orders_frame_witness :
    (ServerApp.applyOp (ServerApp.Op.updateProduct "prod-a" exProductCreate)
        exDB).orders = exDB.orders
    ∧ ∃ tail, (ServerApp.applyOp (ServerApp.Op.addCart "user-1" "prod-a" 2)
        exDB).orders = exDB.orders ++ tail := by
  refine ⟨(server_orders_frame exDB).2.1 "prod-a" exProductCreate,
    (server_orders_frame exDB).1 _ ?_⟩
  intro oid st h
  simp at h

/-! ### Claim C8 — discount percentage -/

/-- C8 counterexample: the claim quantifies over every product, but a
product document with a negative price is accepted by the API, and there
the discount computation both raises on a zero MRP (Python
`ZeroDivisionError`, because `mrp > price` holds) and goes negative when
the MRP is negative — `int(((-10) - (-20)) / (-10) * 100) = -100`. -/
theorem server_discount_percent_pathologies :
    ServerApp.discount_percent (-1) 0 = .error .divisionByZero
    ∧ ServerApp.discount_percent (-20) (-10) = .ok (-100) := by
  constructor
  · norm_num [ServerApp.discount_percent]
  · norm_num [ServerApp.discount_percent, ServerApp.pyTrunc]
    rw [show (-100 : ℚ) = ((-100 : ℤ) : ℚ) by norm_num, Int.ceil_intCast]

/-- C8 (amended to products with a non-negative price): the discount is
`floor((mrp - price) / mrp * 100)` when `mrp > price` and 0 otherwise, it
is never negative, and a zero MRP yields 0 without raising a division
error. -/
theorem server_discount_percent_spec (price mrp : ℚ) (h : 0 ≤ price) :
    (mrp ≤ price → ServerApp.discount_percent price mrp = .ok 0)
    ∧ (price < mrp → ServerApp.discount_percent price mrp
        = .ok ⌊(mrp - price) / mrp * 100⌋)
    ∧ (∀ d, ServerApp.discount_percent price mrp = .ok d → 0 ≤ d)
    ∧ (mrp = 0 → ServerApp.discount_percent price mrp = .ok 0) := by
  have key : price < mrp →
      ServerApp.discount_percent price mrp = .ok ⌊(mrp - price) / mrp * 100⌋
      ∧ 0 ≤ ⌊(mrp - price) / mrp * 100⌋ := by
    intro hlt
    have hmrp : 0 < mrp := lt_of_le_of_lt h hlt
    have hq : 0 < (mrp - price) / mrp * 100 :=
      mul_pos (div_pos (sub_pos.mpr hlt) hmrp) (by norm_num)
    constructor
    · rw [ServerApp.discount_percent, if_pos hlt, if_neg (ne_of_gt hmrp),
        ServerApp.pyTrunc, if_neg (not_lt.mpr (le_of_lt hq))]
    · exact Int.le_floor.mpr (by exact_mod_cast le_of_lt hq)
  refine ⟨?_, fun hlt => (key hlt).1, ?_, ?_⟩
  · intro hle
    rw [ServerApp.discount_percent, if_neg (not_lt.mpr hle)]
  · intro d hd
    rcases le_or_lt mrp price with hle | hlt
    · rw [ServerApp.discount_percent, if_neg (not_lt.mpr hle)] at hd
      cases hd
      exact le_refl 0
    · obtain ⟨he, hnn⟩ := key hlt
      rw [he] at hd
      cases hd
      exact hnn
  · intro h0
    rw [ServerApp.discount_percent, if_neg (not_lt.mpr (h0 ▸ h))]

/-- C8 witness: the claim's example — price 28, MRP 30 — yields a discount
of exactly 6. -/
theorem server_discount_percent_spec_witness :
    ServerApp.discount_percent 28 30 = .ok 6 := by
  have h := (server_discount_percent_spec 28 30 (by norm_num)).2.1 (by norm_num)
  rw [h]
  norm_num

/-! ### Claim C9 — add accumulates into an existing line -/

/-- C9: in both snapshots, `add` on a catalog product appends a single new
line when no line for the product exists (in `main.py` the appended line
carries the product's presentation snapshot — name, price, image — taken
at add time; in `server.py` the stored line is just product id and
quantity), and otherwise accumulates into the existing line; hence
`add(p, a)` then `add(p, b)` from a cart without `p` leaves one line for
`p` with quantity `a + b`. -/
theorem add_to_cart_accumulates :
    (∀ (catalog : List ServerApp.Product) lines pid qty p,
      ServerApp.findProduct catalog pid = some p →
      (∀ l ∈ lines, l.product_id ≠ pid) →
      ServerApp.add_to_cart catalog lines pid qty = .ok (lines ++ [⟨pid, qty⟩]))
    ∧ (∀ (catalog : List ServerApp.Product) pre post pid q0 qty p,
      ServerApp.findProduct catalog pid = some p →
      (∀ l ∈ pre, l.product_id ≠ pid) →
      ServerApp.add_to_cart catalog (pre ++ ⟨pid, q0⟩ :: post) pid qty
        = .ok (pre ++ ⟨pid, q0 + qty⟩ :: post))
    ∧ (∀ (catalog : List ServerApp.Product) lines pid a b p,
      ServerApp.findProduct catalog pid = some p →
      (∀ l ∈ lines, l.product_id ≠ pid) →
      ServerApp.add_to_cart catalog lines pid a = .ok (lines ++ [⟨pid, a⟩])
      ∧ ServerApp.add_to_cart catalog (lines ++ [⟨pid, a⟩]) pid b
          = .ok (lines ++ [⟨pid, a + b⟩]))
    ∧ (∀ pid qty p (items : List MainApp.CartItem),
      MainApp.PRODUCTS.find? (fun q => q.id == pid) = some p →
      (∀ i ∈ items, i.product_id ≠ pid) →
      MainApp.add_to_cart items pid qty
        = .ok (items ++ [⟨pid, p.name, p.price, p.image, qty⟩]))
    ∧ (∀ pid a b p,
      MainApp.PRODUCTS.find? (fun q => q.id == pid) = some p →
      MainApp.add_to_cart [] pid a = .ok [⟨pid, p.name, p.price, p.image, a⟩]
      ∧ MainApp.add_to_cart [⟨pid, p.name, p.price, p.image, a⟩] pid b
          = .ok [⟨pid, p.name, p.price, p.image, a + b⟩]) := by
  refine ⟨?_, ?_, ?_, ?_, ?_⟩
  · intro catalog lines pid qty p hp hno
    exact server_add_not_mem hp hno qty
  · intro catalog pre post pid q0 qty p hp hpre
    exact server_add_mem hp hpre q0 qty post
  · intro catalog lines pid a b p hp hno
    refine ⟨server_add_not_mem hp hno a, ?_⟩
    have h := server_add_mem hp hno a b ([] : List ServerApp.CartLine)
    simpa using h
  · intro pid qty p items hp hno
    exact main_add_not_mem hp hno qty
  · intro pid a b p hp
    refine ⟨main_add_not_mem hp (by simp) a, ?_⟩
    have h := @main_add_mem pid p hp ([] : List MainApp.CartItem)
      ⟨pid, p.name, p.price, p.image, a⟩ rfl (by simp) b
      ([] : List MainApp.CartItem)
    simpa using h

/-- C9 witness: `add(p, 2)` then `add(p, 3)` on an empty cart yields a
single line for `p` with quantity 5, in both snapshots. -/
theorem add_to_cart_accumulates_witness :
    ServerApp.add_to_cart exCatalog [] "prod-b" 2 = .ok [⟨"prod-b", 2⟩]
    ∧ ServerApp.add_to_cart exCatalog [⟨"prod-b", 2⟩] "prod-b" 3
        = .ok [⟨"prod-b", 5⟩]
    ∧ MainApp.add_to_cart [] 2 2
        = .ok [⟨2, "Amul Milk 500ml", 28, "https://via.placeholder.com/150", 2⟩]
    ∧ MainApp.add_to_cart
        [⟨2, "Amul Milk 500ml", 28, "https://via.placeholder.com/150", 2⟩] 2 3
        = .ok [⟨2, "Amul Milk 500ml", 28, "https://via.placeholder.com/150", 5⟩] := by
  obtain ⟨h1, h2⟩ := add_to_cart_accumulates.2.2.1 exCatalog [] "prod-b" 2 3
    exProductB (by decide) (by simp)
  obtain ⟨h3, h4⟩ := add_to_cart_accumulates.2.2.2.2 2 2 3
    (MainApp.PRODUCTS.get ⟨1, by decide⟩) (by decide)
  refine ⟨by simpa using h1, by simpa using h2, by simpa using h3,
    by simpa using h4⟩

/-! ### Claim C10 — omitted quantity defaults to 1 -/

/-- C10: at the public add-to-cart interface of both snapshots, omitting
the quantity field is the same as sending quantity 1 (`payload.get`
default in `main.py`, pydantic field default in `server.py`): a fresh
product gains a line with quantity 1, and an existing line is incremented
by 1. -/
theorem add_to_cart_default_quantity :
    (∀ items pid,
      MainApp.add_to_cart_route items pid none = MainApp.add_to_cart items pid 1)
    ∧ (∀ (catalog : List ServerApp.Product) lines pid,
      ServerApp.add_to_cart_route catalog lines pid none
        = ServerApp.add_to_cart catalog lines pid 1)
    ∧ (∀ (catalog : List ServerApp.Product) lines pid p,
      ServerApp.findProduct catalog pid = some p →
      (∀ l ∈ lines, l.product_id ≠ pid) →
      ServerApp.add_to_cart_route catalog lines pid none
        = .ok (lines ++ [⟨pid, 1⟩]))
    ∧ (∀ (catalog : List ServerApp.Product) pre post pid q0 p,
      ServerApp.findProduct catalog pid = some p →
      (∀ l ∈ pre, l.product_id ≠ pid) →
      ServerApp.add_to_cart_route catalog (pre ++ ⟨pid, q0⟩ :: post) pid none
        = .ok (pre ++ ⟨pid, q0 + 1⟩ :: post))
    ∧ (∀ (items : List MainApp.CartItem) pid p,
      MainApp.PRODUCTS.find? (fun q => q.id == pid) = some p →
      (∀ i ∈ items, i.product_id ≠ pid) →
      MainApp.add_to_cart_route items pid none
        = .ok (items ++ [⟨pid, p.name, p.price, p.image, 1⟩])) := by
  refine ⟨fun items pid => rfl, fun catalog lines pid => rfl, ?_, ?_, ?_⟩
  · intro catalog lines pid p hp hno
    exact server_add_not_mem hp hno 1
  · intro catalog pre post pid q0 p hp hpre
    exact server_add_mem hp hpre q0 1 post
  · intro items pid p hp hno
    exact main_add_not_mem hp hno 1

/-- C10 witness: an add request with no quantity field puts one unit of
the product in the concrete carts of both snapshots, and bumps an
existing line by one. -/
theorem add_to_cart_default_quantity_witness :
    ServerApp.add_to_cart_route exCatalog [] "prod-a" none
        = .ok [⟨"prod-a", 1⟩]
    ∧ ServerApp.add_to_cart_route exCatalog [⟨"prod-a", 4⟩] "prod-a" none
        = .ok [⟨"prod-a", 5⟩]
    ∧ MainApp.add_to_cart_route [] 1 none
        = .ok [⟨1, "Aashirvaad Atta 5kg", 320, "https://via.placeholder.com/150", 1⟩] := by
  have h1 := add_to_cart_default_quantity.2.2.1 exCatalog [] "prod-a"
    exProductA (by decide) (by simp)
  have h2 := add_to_cart_default_quantity.2.2.2.1 exCatalog
    ([] : List ServerApp.CartLine) ([] : List ServerApp.CartLine)
    "prod-a" 4 exProductA (by decide) (by simp)
  have h3 := add_to_cart_default_quantity.2.2.2.2
    ([] : List MainApp.CartItem) 1 (MainApp.PRODUCTS.get ⟨0, by decide⟩)
    (by decide) (by simp)
  exact ⟨by simpa using h1, by simpa using h2, by simpa using h3⟩

